import Mathlib

/-!
Verification of the Docker build-and-push helper script
(src/docker/campaign-volume-workspace/push.py).

The script's pure core, `calculate_tags`, is embedded directly, on top of
small models of the Python string primitives it uses (`str.split` with and
without `maxsplit`, `str.join`, `str.startswith`, `itertools.accumulate`).

The process-spawning layer (`run`, `docker_login`, `docker_build`, `main`)
is embedded as a trace semantics: each function is parameterised by an
executor oracle assigning an exit code to every spawned command, and
returns the ordered list of observable events (printed lines and process
executions) together with the final outcome (`Except.ok` for a clean run,
`Except.error` for a propagated Python exception).
-/

namespace Push

/-- Python `s.split(sep, maxsplit)` for a single-character separator,
working on the character list: `acc` holds the current field reversed,
the `Nat` is the number of splits still allowed. -/
def pySplitMaxAux (sep : Char) : List Char → Nat → List Char → List (List Char)
  | [], _, acc => [acc.reverse]
  | c :: cs, 0, acc => [acc.reverse ++ c :: cs]
  | c :: cs, Nat.succ n, acc =>
    if c = sep then acc.reverse :: pySplitMaxAux sep cs n []
    else pySplitMaxAux sep cs (Nat.succ n) (c :: acc)

/-- Python `s.split(sep, maxsplit)` for a single-character separator. -/
def pySplitMax (sep : Char) (maxsplit : Nat) (s : String) : List String :=
  (pySplitMaxAux sep s.data maxsplit []).map String.mk

/-- Python `s.split(sep)` (no maxsplit) for a single-character separator,
working on the character list. -/
def pySplitAllAux (sep : Char) : List Char → List Char → List (List Char)
  | [], acc => [acc.reverse]
  | c :: cs, acc =>
    if c = sep then acc.reverse :: pySplitAllAux sep cs []
    else pySplitAllAux sep cs (c :: acc)

/-- Python `s.split(sep)` (no maxsplit) for a single-character separator. -/
def pySplitAll (sep : Char) (s : String) : List String :=
  (pySplitAllAux sep s.data []).map String.mk

/-- Python `sep.join(xs)`. -/
def pyJoin (sep : String) : List String → String
  | [] => ""
  | [x] => x
  | x :: y :: xs => x ++ sep ++ pyJoin sep (y :: xs)

/-- Python `itertools.accumulate(xs, lambda vlist, v: vlist + [v], initial=[])`:
the list of all accumulator states, starting with the initial empty list. -/
def pyAccumulate (xs : List String) : List (List String) :=
  List.scanl (fun vlist v => vlist ++ [v]) [] xs

/-- Python `s.startswith(pre)`. -/
def pyStartswith (s pre : String) : Bool :=
  pre.data.isPrefixOf s.data

/-- Embedding of `calculate_tags` from push.py: always `["latest"]` first;
for a `refs/tags/` ref, append the `.`-joins of the nonempty accumulated
prefixes of the version components.  `ref.split("/", 2)[2]` is modelled
with `getD 2 ""`; the default is unreachable because under the
`startswith` guard the split always has three fields. -/
def calculate_tags (ref : String) : List String :=
  let tags := ["latest"]
  if pyStartswith ref "refs/tags/" then
    tags ++
      ((pyAccumulate (pySplitAll '.' ((pySplitMax '/' 2 ref).getD 2 ""))).filter
          (fun vc => vc.length > 0)).map (pyJoin ".")
  else
    tags

/-- Stdin channel handed to a spawned process: a binary file stream
(`stdin=dockerfile`) or an in-memory text payload (`input=password`). -/
inductive ProcInput where
  | stdinStream (content : String)
  | inputText (s : String)
deriving DecidableEq

/-- Observable events of a script run, in order: operator-visible command
echoes (the `print(f"+ {...}")` in `run`), other printed lines, and
process executions. -/
inductive Event where
  | echo (line : String)
  | msg (line : String)
  | exec (args : List String) (inp : ProcInput)
deriving DecidableEq

/-- Python exceptions that can escape `main`: `KeyError` from an
environment lookup, `CalledProcessError` from `subprocess.run(check=True)`. -/
inductive PyError where
  | keyError (key : String)
  | calledProcessError (args : List String) (returncode : Nat)
deriving DecidableEq

/-- Exit-code oracle for spawned commands. -/
abbrev Executor := List String → ProcInput → Nat

/-- Embedding of `run` from push.py: echo the joined command line, then
spawn the process; with `check=True` a nonzero exit code raises
`CalledProcessError`. -/
def run (executor : Executor) (args : List String) (inp : ProcInput) :
    List Event × Except PyError Unit :=
  let events := [Event.echo ("+ " ++ pyJoin " " args), Event.exec args inp]
  if executor args inp = 0 then (events, Except.ok ())
  else (events, Except.error (PyError.calledProcessError args (executor args inp)))

/-- Argument list built by `docker_build` in push.py: the base command,
then the `-t` pairs appended tag by tag, then the optional platform pair,
then `-`.  The `image` parameter is bound but, as in the source, never
used. -/
def docker_build_args (platform : Option String) (image : String)
    (tags : List String) : List String :=
  let args := ["docker", "buildx", "build", "--push"]
  let args := tags.foldl (fun args tag => args ++ ["-t", tag]) args
  let args :=
    match platform with
    | some p => args ++ ["--platform", p]
    | none => args
  args ++ ["-"]

/-- Embedding of `docker_build` from push.py: run the built argument list
with the Dockerfile stream as stdin. -/
def docker_build (executor : Executor) (dockerfile : String)
    (platform : Option String) (image : String) (tags : List String) :
    List Event × Except PyError Unit :=
  run executor (docker_build_args platform image tags) (ProcInput.stdinStream dockerfile)

/-- Embedding of `docker_login` from push.py: the password travels as the
process's stdin text, never as an argument. -/
def docker_login (executor : Executor) (username password : String) :
    List Event × Except PyError Unit :=
  run executor ["docker", "login", "-u=" ++ username, "--password-stdin"]
    (ProcInput.inputText password)

/-- Environment variables read by `main` (`os.environ`). -/
structure Env where
  DOCKER_USERNAME : Option String
  DOCKER_PASSWORD : Option String
deriving DecidableEq

/-- Parsed command-line arguments of `main`; the Dockerfile is modelled by
its content stream. -/
structure Args where
  dockerfile : String
  image : String
  platform : Option String
  ref : String
deriving DecidableEq

/-- Python `str(KeyError(key))`: the repr of the missing key. -/
def keyErrorStr (key : String) : String := "'" ++ key ++ "'"

/-- Embedding of `main` from push.py (after argument parsing): derive the
tags, look up both credentials (username first, as Python evaluates call
arguments left to right; a missing one raises `KeyError`, which the
`except` clause reports by name and re-raises), then login, then build,
each aborting the run on failure. -/
def main (executor : Executor) (env : Env) (a : Args) :
    List Event × Except PyError Unit :=
  let tags := calculate_tags a.ref
  let e1 := [Event.msg ("will push tags: " ++ pyJoin ", " tags),
             Event.msg "logging into Docker Hub"]
  match env.DOCKER_USERNAME with
  | none =>
    (e1 ++ [Event.msg ("error retrieving environment variables: " ++
        keyErrorStr "DOCKER_USERNAME")],
     Except.error (PyError.keyError "DOCKER_USERNAME"))
  | some username =>
    match env.DOCKER_PASSWORD with
    | none =>
      (e1 ++ [Event.msg ("error retrieving environment variables: " ++
          keyErrorStr "DOCKER_PASSWORD")],
       Except.error (PyError.keyError "DOCKER_PASSWORD"))
    | some password =>
      match docker_login executor username password with
      | (e2, Except.error err) => (e1 ++ e2, Except.error err)
      | (e2, Except.ok _) =>
        let e3 := [Event.msg "building and pushing image"]
        match docker_build executor a.dockerfile a.platform a.image tags with
        | (e4, Except.error err) => (e1 ++ e2 ++ e3 ++ e4, Except.error err)
        | (e4, Except.ok _) =>
          (e1 ++ e2 ++ e3 ++ e4 ++ [Event.msg "success!"], Except.ok ())

/-- Process-execution events of a trace, in order. -/
def execEvents (trace : List Event) : List Event :=
  trace.filter fun e =>
    match e with
    | Event.exec _ _ => true
    | _ => false

/-- Echoed command lines of a trace, in order. -/
def echoLines (trace : List Event) : List String :=
  trace.filterMap fun e =>
    match e with
    | Event.echo s => some s
    | _ => none

/-- Written from the spec's words: the login argument list is exactly
`docker login -u=<username> --password-stdin`. -/
def login_args (username : String) : List String :=
  ["docker", "login", "-u=" ++ username, "--password-stdin"]

/-- Written from the spec's words: a `-t <tag>` pair for every tag, in
sequence order. -/
def tagArgs : List String → List String
  | [] => []
  | t :: ts => "-t" :: t :: tagArgs ts

/-- Written from the spec's words: a `--platform <spec>` pair exactly when
a platform specifier is given, otherwise nothing. -/
def platformArgs : Option String → List String
  | some p => ["--platform", p]
  | none => []

/-- Written from the spec's words: the build command is the base
invocation, the per-tag pairs, the optional platform pair, and the final
`-` that reads the Dockerfile from stdin. -/
def spec_build_args (platform : Option String) (tags : List String) : List String :=
  ["docker", "buildx", "build", "--push"] ++ tagArgs tags ++ platformArgs platform ++ ["-"]

/-- Written from the spec's words (claim C2): for a tag ref with remainder
`rest`, the result is `latest` followed by the joins of the prefixes of
the version components of length 1 to `n`, in increasing-prefix-length
order, components taken verbatim. -/
def spec_tag_list (rest : String) : List String :=
  let cs := pySplitAll '.' rest
  "latest" :: (List.range cs.length).map (fun k => pyJoin "." (cs.take (k + 1)))

/-- Command line echoed by `run` for the login invocation: a function of
the username only. -/
def loginEcho (username : String) : String := "+ " ++ pyJoin " " (login_args username)

/-- Printed lines of `main` preceding any credential access. -/
def preMsgs (a : Args) : List Event :=
  [Event.msg ("will push tags: " ++ pyJoin ", " (calculate_tags a.ref)),
   Event.msg "logging into Docker Hub"]

/-- Build command line spawned by `main` for given parsed arguments. -/
def buildCmd (a : Args) : List String :=
  docker_build_args a.platform a.image (calculate_tags a.ref)

/-- Command line echoed by `run` for the build invocation: a function of
the parsed arguments only. -/
def buildEcho (a : Args) : String := "+ " ++ pyJoin " " (buildCmd a)

/-- Every command line `main` can ever echo, as a function of the username
and the parsed arguments only — in particular not of the password. -/
def possibleEchoes (username : String) (a : Args) : List String :=
  [loginEcho username, buildEcho a]

/-! Helper lemmas about the string model. -/

/-- With no splits left, the whole remaining input is the final field. -/
theorem pySplitMaxAux_zero (sep : Char) (l acc : List Char) :
    pySplitMaxAux sep l 0 acc = [acc.reverse ++ l] := by
  cases l <;> simp [pySplitMaxAux]

/-- Splitting a `refs/tags/` ref on `/` with maxsplit 2 isolates the
remainder after the prefix as the third field. -/
theorem pySplitMax_tagRef (rest : String) :
    pySplitMax '/' 2 ("refs/tags/" ++ rest) = ["refs", "tags", rest] := by
  have hdata : ("refs/tags/" ++ rest).data =
      'r' :: 'e' :: 'f' :: 's' :: '/' :: 't' :: 'a' :: 'g' :: 's' :: '/' :: rest.data := rfl
  unfold pySplitMax
  rw [hdata]
  simp [pySplitMaxAux, pySplitMaxAux_zero]

/-- Every string of the form `refs/tags/…` satisfies the startswith guard. -/
theorem pyStartswith_tagRef (rest : String) :
    pyStartswith ("refs/tags/" ++ rest) "refs/tags/" = true := by
  have hdata : ("refs/tags/" ++ rest).data =
      'r' :: 'e' :: 'f' :: 's' :: '/' :: 't' :: 'a' :: 'g' :: 's' :: '/' :: rest.data := rfl
  unfold pyStartswith
  rw [hdata]
  simp [List.isPrefixOf]

/-- When the running accumulator is already nonempty, every scanl state is
nonempty, so the filter keeps everything. -/
theorem scanl_filter_join_of_ne_nil (cs : List String) (a : List String) (ha : a ≠ []) :
    ((List.scanl (fun vlist v => vlist ++ [v]) a cs).filter
        (fun vc => vc.length > 0)).map (pyJoin ".") =
      (List.range (cs.length + 1)).map (fun k => pyJoin "." (a ++ cs.take k)) := by
  induction cs generalizing a with
  | nil =>
    simp [List.filter_cons, List.length_pos, ha]
  | cons c cs ih =>
    rw [List.scanl_cons]
    have hne : a ++ [c] ≠ [] := by simp
    simp only [List.singleton_append, List.filter_cons, List.map_cons]
    rw [if_pos (by simpa [List.length_pos] using ha)]
    rw [List.map_cons, ih (a ++ [c]) hne]
    simp [List.range_succ_eq_map, List.map_map, Function.comp_def, List.take_succ_cons,
      List.append_assoc]

/-- Filtering the empty accumulator state away and joining yields exactly
the `.`-joins of the nonempty prefixes, in increasing-length order. -/
theorem accumulate_filter_join (cs : List String) :
    ((pyAccumulate cs).filter (fun vc => vc.length > 0)).map (pyJoin ".") =
      (List.range cs.length).map (fun k => pyJoin "." (cs.take (k + 1))) := by
  unfold pyAccumulate
  cases cs with
  | nil => rfl
  | cons c cs =>
    rw [List.scanl_cons]
    simp only [List.singleton_append, List.filter_cons, List.nil_append]
    rw [if_neg (by simp)]
    rw [scanl_filter_join_of_ne_nil cs [c] (by simp)]
    simp [List.take_succ_cons, List.singleton_append]

/-! Helper lemmas about the Publisher model. -/

/-- Appending `-t` pairs tag by tag, as the source's loop does, equals the
spec-shaped per-tag segment. -/
theorem foldl_tagArgs (tags : List String) (init : List String) :
    tags.foldl (fun args tag => args ++ ["-t", tag]) init = init ++ tagArgs tags := by
  induction tags generalizing init with
  | nil => simp [tagArgs]
  | cons t ts ih => simp [tagArgs, List.foldl_cons, ih, List.append_assoc]

/-- The argument list built by `docker_build` equals the spec-shaped
decomposition. -/
theorem docker_build_args_eq_spec (platform : Option String) (image : String)
    (tags : List String) :
    docker_build_args platform image tags = spec_build_args platform tags := by
  simp only [docker_build_args, spec_build_args]
  rw [foldl_tagArgs]
  cases platform <;> simp [platformArgs, List.append_assoc]

/-- Every tag of the sequence contributes its own bare `-t <tag>` pair to
the tag segment. -/
theorem tagArgs_decomp (t : String) (tags : List String) (h : t ∈ tags) :
    ∃ l r, tagArgs tags = l ++ ["-t", t] ++ r := by
  induction tags with
  | nil => cases h
  | cons c cs ih =>
    rcases List.mem_cons.mp h with h | h
    · subst h
      exact ⟨[], tagArgs cs, rfl⟩
    · obtain ⟨l, r, hlr⟩ := ih h
      exact ⟨"-t" :: c :: l, r, by simp [tagArgs, hlr]⟩

/-- The echoed login line is literally
`+ docker login -u=<username> --password-stdin`: the username is embedded
between two fixed literals, and nothing else is. -/
theorem loginEcho_data (u : String) :
    (loginEcho u).data =
      "+ docker login -u=".data ++ u.data ++ " --password-stdin".data := by
  have h : (loginEcho u).data =
      "+ docker login -u=".data ++ ((u.data ++ " ".data) ++ "--password-stdin".data) := rfl
  rw [h, List.append_assoc u.data, ← List.append_assoc "+ docker login -u=".data]
  rfl

/-- With both credentials present and a failing login command, `main`
stops right after the login attempt. -/
theorem main_login_fail (ex : Executor) (u p : String) (a : Args)
    (h : ex (login_args u) (ProcInput.inputText p) ≠ 0) :
    main ex ⟨some u, some p⟩ a =
      (preMsgs a ++ [Event.echo (loginEcho u),
          Event.exec (login_args u) (ProcInput.inputText p)],
       Except.error (PyError.calledProcessError (login_args u)
         (ex (login_args u) (ProcInput.inputText p)))) := by
  have h' : ex ["docker", "login", "-u=" ++ u, "--password-stdin"]
      (ProcInput.inputText p) ≠ 0 := h
  unfold main docker_login run
  simp [h', preMsgs, loginEcho, login_args]

/-- With both credentials present and a successful login command, `main`
echoes and spawns the build command after the login; the trailing
confirmation and the outcome depend on the build's exit code. -/
theorem main_login_ok (ex : Executor) (u p : String) (a : Args)
    (h : ex (login_args u) (ProcInput.inputText p) = 0) :
    main ex ⟨some u, some p⟩ a =
      (preMsgs a ++ [Event.echo (loginEcho u),
          Event.exec (login_args u) (ProcInput.inputText p)]
        ++ [Event.msg "building and pushing image"]
        ++ [Event.echo (buildEcho a),
            Event.exec (buildCmd a) (ProcInput.stdinStream a.dockerfile)]
        ++ (if ex (buildCmd a) (ProcInput.stdinStream a.dockerfile) = 0
            then [Event.msg "success!"] else []),
       if ex (buildCmd a) (ProcInput.stdinStream a.dockerfile) = 0 then Except.ok ()
       else Except.error (PyError.calledProcessError (buildCmd a)
         (ex (buildCmd a) (ProcInput.stdinStream a.dockerfile)))) := by
  have h' : ex ["docker", "login", "-u=" ++ u, "--password-stdin"]
      (ProcInput.inputText p) = 0 := h
  unfold main docker_login docker_build run
  by_cases hb : ex (buildCmd a) (ProcInput.stdinStream a.dockerfile) = 0
  · have hb' : ex (docker_build_args a.platform a.image (calculate_tags a.ref))
        (ProcInput.stdinStream a.dockerfile) = 0 := hb
    simp [h', hb', preMsgs, loginEcho, buildEcho, buildCmd, login_args, List.append_assoc]
  · have hb' : ¬ ex (docker_build_args a.platform a.image (calculate_tags a.ref))
        (ProcInput.stdinStream a.dockerfile) = 0 := hb
    simp [h', hb', preMsgs, loginEcho, buildEcho, buildCmd, login_args, List.append_assoc]

/-! Claim theorems about the Tag Deriver. -/

/-- C2: for every ref of the form `refs/tags/<rest>`, `calculate_tags`
returns `latest` followed by exactly the joins of the increasing-length
prefixes of the `.`-components of the remainder, in order, components
accepted verbatim; in particular `refs/tags/1.2.3` yields
`["latest", "1", "1.2", "1.2.3"]`. -/
theorem calculate_tags_tag_ref :
    (∀ rest : String, calculate_tags ("refs/tags/" ++ rest) = spec_tag_list rest) ∧
    calculate_tags "refs/tags/1.2.3" = ["latest", "1", "1.2", "1.2.3"] := by
  constructor
  · intro rest
    unfold calculate_tags
    rw [pyStartswith_tagRef rest, if_pos rfl, pySplitMax_tagRef]
    have hg : (["refs", "tags", rest]).getD 2 "" = rest := rfl
    rw [hg, accumulate_filter_join]
    rfl
  · decide

/-- C3: for every ref that does not begin with `refs/tags/`,
`calculate_tags` returns exactly `["latest"]`. -/
theorem calculate_tags_non_tag_ref (ref : String)
    (h : pyStartswith ref "refs/tags/" = false) :
    calculate_tags ref = ["latest"] := by
  simp [calculate_tags, h]

/-- Witness for C3: a branch ref and the empty string do not begin with
`refs/tags/` and both yield exactly `["latest"]`. -/
theorem calculate_tags_non_tag_ref_witness :
    pyStartswith "refs/heads/main" "refs/tags/" = false ∧
      calculate_tags "refs/heads/main" = ["latest"] ∧
      pyStartswith "" "refs/tags/" = false ∧
      calculate_tags "" = ["latest"] :=
  ⟨by decide, calculate_tags_non_tag_ref "refs/heads/main" (by decide),
   by decide, calculate_tags_non_tag_ref "" (by decide)⟩

/-- C5: for the exact input `refs/tags/` the empty remainder splits into a
single empty component, producing the degenerate tag list
`["latest", ""]`. -/
theorem calculate_tags_empty_remainder :
    calculate_tags "refs/tags/" = ["latest", ""] := by decide

/-- C10: for every input ref, the result of `calculate_tags` is non-empty
and its first element is the literal string `latest`. -/
theorem calculate_tags_head_latest (ref : String) :
    (calculate_tags ref).head? = some "latest" ∧ 0 < (calculate_tags ref).length := by
  unfold calculate_tags
  split <;> simp

/-! Claim theorems about the Publisher. -/

/-- C1: the command line built by the build-and-push operation never
incorporates the target image: for any two image strings the whole
invocation is identical; moreover every tag is passed bare as its own
`-t <tag>` pair. -/
theorem docker_build_ignores_image :
    (∀ (executor : Executor) (dockerfile : String) (platform : Option String)
        (tags : List String) (i1 i2 : String),
      docker_build executor dockerfile platform i1 tags =
        docker_build executor dockerfile platform i2 tags) ∧
    (∀ (platform : Option String) (image t : String) (tags : List String),
      t ∈ tags →
        ∃ l r, docker_build_args platform image tags = l ++ ["-t", t] ++ r) := by
  constructor
  · intro executor dockerfile platform tags i1 i2
    rfl
  · intro platform image t tags h
    obtain ⟨l, r, hlr⟩ := tagArgs_decomp t tags h
    refine ⟨["docker", "buildx", "build", "--push"] ++ l,
      r ++ platformArgs platform ++ ["-"], ?_⟩
    rw [docker_build_args_eq_spec]
    unfold spec_build_args
    rw [hlr]
    simp [List.append_assoc]

/-- Witness for C1: a concrete run with two different image names, and a
concrete tag occurring bare in the built argument list. -/
theorem docker_build_ignores_image_witness :
    docker_build (fun _ _ => 0) "FROM scratch" (some "linux/amd64") "org/app"
        ["latest", "1"] =
      docker_build (fun _ _ => 0) "FROM scratch" (some "linux/amd64") "other/img"
        ["latest", "1"] ∧
    ∃ l r, docker_build_args (some "linux/amd64") "org/app" ["latest", "1"] =
        l ++ ["-t", "1"] ++ r :=
  ⟨docker_build_ignores_image.1 (fun _ _ => 0) "FROM scratch" (some "linux/amd64")
      ["latest", "1"] "org/app" "other/img",
   docker_build_ignores_image.2 (some "linux/amd64") "org/app" "1" ["latest", "1"]
      (by decide)⟩

/-- C9: `docker_build` issues exactly one build invocation, which pushes
directly, is echoed first, and reads the Dockerfile from stdin; its
argument list decomposes as the base `docker buildx build --push`, one
`-t <tag>` pair per tag in sequence order, the `--platform` pair exactly
when a platform specifier is given, then the final `-`. -/
theorem docker_build_single_invocation (executor : Executor) (dockerfile : String)
    (platform : Option String) (image : String) (tags : List String) :
    (docker_build executor dockerfile platform image tags).1 =
      [Event.echo ("+ " ++ pyJoin " " (docker_build_args platform image tags)),
       Event.exec (docker_build_args platform image tags)
         (ProcInput.stdinStream dockerfile)] ∧
    execEvents (docker_build executor dockerfile platform image tags).1 =
      [Event.exec (docker_build_args platform image tags)
        (ProcInput.stdinStream dockerfile)] ∧
    docker_build_args platform image tags = spec_build_args platform tags ∧
    (docker_build_args platform image tags).getLast? = some "-" := by
  refine ⟨?_, ?_, docker_build_args_eq_spec platform image tags, ?_⟩
  · unfold docker_build run
    split <;> rfl
  · unfold docker_build run
    split <;> rfl
  · rw [docker_build_args_eq_spec]
    unfold spec_build_args
    exact List.getLast?_concat _

/-- Counterexample to C4 as stated: at a concrete run, the echoed login
command line contains the registry username. -/
theorem echoed_username_counterexample :
    Event.echo "+ docker login -u=hunter2 --password-stdin" ∈
        (main (fun _ _ => 0) ⟨some "hunter2", some "pw"⟩
          ⟨"FROM scratch", "org/app", none, "refs/heads/main"⟩).1 ∧
    ∃ l r, "+ docker login -u=hunter2 --password-stdin" = l ++ "hunter2" ++ r := by
  constructor
  · decide
  · exact ⟨"+ docker login -u=", " --password-stdin", by decide⟩

/-- C4 amended: every echoed line is drawn from `possibleEchoes`, a
function of the username and the parsed arguments only — so the password
never appears in an echoed command line; every spawned command is echoed
immediately before its execution event; the username, however, does
appear in the echoed login line, which is exactly
`+ docker login -u=<username> --password-stdin`. -/
theorem echo_discipline (ex : Executor) (u p : String) (a : Args) :
    (∀ s, Event.echo s ∈ (main ex ⟨some u, some p⟩ a).1 → s ∈ possibleEchoes u a) ∧
    (loginEcho u).data =
      "+ docker login -u=".data ++ u.data ++ " --password-stdin".data ∧
    (∀ args inp, Event.exec args inp ∈ (main ex ⟨some u, some p⟩ a).1 →
      ∃ t1 t2, (main ex ⟨some u, some p⟩ a).1 =
        t1 ++ Event.echo ("+ " ++ pyJoin " " args) ::
          Event.exec args inp :: t2) := by
  refine ⟨?_, loginEcho_data u, ?_⟩
  · intro s hs
    by_cases h : ex (login_args u) (ProcInput.inputText p) = 0
    · rw [main_login_ok ex u p a h] at hs
      by_cases hb : ex (buildCmd a) (ProcInput.stdinStream a.dockerfile) = 0 <;>
        simp [hb, preMsgs, possibleEchoes] at hs ⊢ <;> tauto
    · rw [main_login_fail ex u p a h] at hs
      simp [preMsgs, possibleEchoes] at hs ⊢
      tauto
  · intro args inp hmem
    by_cases h : ex (login_args u) (ProcInput.inputText p) = 0
    · rw [main_login_ok ex u p a h] at hmem ⊢
      by_cases hb : ex (buildCmd a) (ProcInput.stdinStream a.dockerfile) = 0
      · simp [hb, preMsgs] at hmem
        rcases hmem with ⟨ha, hi⟩ | ⟨ha, hi⟩
        · subst ha; subst hi
          refine ⟨preMsgs a,
            [Event.msg "building and pushing image", Event.echo (buildEcho a),
             Event.exec (buildCmd a) (ProcInput.stdinStream a.dockerfile),
             Event.msg "success!"], ?_⟩
          simp [hb, loginEcho, preMsgs, List.append_assoc]
        · subst ha; subst hi
          refine ⟨preMsgs a ++ [Event.echo (loginEcho u),
              Event.exec (login_args u) (ProcInput.inputText p),
              Event.msg "building and pushing image"],
            [Event.msg "success!"], ?_⟩
          simp [hb, buildEcho, preMsgs, List.append_assoc]
      · simp [hb, preMsgs] at hmem
        rcases hmem with ⟨ha, hi⟩ | ⟨ha, hi⟩
        · subst ha; subst hi
          refine ⟨preMsgs a,
            [Event.msg "building and pushing image", Event.echo (buildEcho a),
             Event.exec (buildCmd a) (ProcInput.stdinStream a.dockerfile)], ?_⟩
          simp [hb, loginEcho, preMsgs, List.append_assoc]
        · subst ha; subst hi
          refine ⟨preMsgs a ++ [Event.echo (loginEcho u),
              Event.exec (login_args u) (ProcInput.inputText p),
              Event.msg "building and pushing image"], [], ?_⟩
          simp [hb, buildEcho, preMsgs, List.append_assoc]
    · rw [main_login_fail ex u p a h] at hmem ⊢
      simp [preMsgs] at hmem
      rcases hmem with ⟨ha, hi⟩
      subst ha; subst hi
      exact ⟨preMsgs a, [], by simp [loginEcho]⟩

/-- Witness for the amended C4: at a concrete run, the echoed login line
is a possible echo, and the login execution is immediately preceded by
its own echo. -/
theorem echo_discipline_witness :
    loginEcho "alice" ∈ possibleEchoes "alice"
        ⟨"FROM scratch", "org/app", none, "refs/heads/x"⟩ ∧
    ∃ t1 t2, (main (fun _ _ => 0) ⟨some "alice", some "pw"⟩
          ⟨"FROM scratch", "org/app", none, "refs/heads/x"⟩).1 =
        t1 ++ Event.echo ("+ " ++ pyJoin " " (login_args "alice")) ::
          Event.exec (login_args "alice") (ProcInput.inputText "pw") :: t2 :=
  ⟨(echo_discipline (fun _ _ => 0) "alice" "pw"
      ⟨"FROM scratch", "org/app", none, "refs/heads/x"⟩).1 (loginEcho "alice")
      (by decide),
   (echo_discipline (fun _ _ => 0) "alice" "pw"
      ⟨"FROM scratch", "org/app", none, "refs/heads/x"⟩).2.2 (login_args "alice")
      (ProcInput.inputText "pw") (by decide)⟩

/-- C6: the login invocation's argument list is exactly
`docker login -u=<username> --password-stdin` — a function of the
username alone, never containing the password, which travels on the stdin
channel instead; and every command `main` ever spawns has its argument
list drawn from the password-free functions `login_args` and `buildCmd`. -/
theorem login_password_stdin_only :
    (∀ (executor : Executor) (u p : String),
      (docker_login executor u p).1 =
        [Event.echo (loginEcho u),
         Event.exec (login_args u) (ProcInput.inputText p)]) ∧
    (∀ u : String,
      login_args u = ["docker", "login", "-u=" ++ u, "--password-stdin"]) ∧
    (∀ (ex : Executor) (u p : String) (a : Args) (args : List String)
        (inp : ProcInput),
      Event.exec args inp ∈ (main ex ⟨some u, some p⟩ a).1 →
        (args = login_args u ∧ inp = ProcInput.inputText p) ∨
        (args = buildCmd a ∧ inp = ProcInput.stdinStream a.dockerfile)) := by
  refine ⟨?_, fun u => rfl, ?_⟩
  · intro executor u p
    unfold docker_login run
    split <;> rfl
  · intro ex u p a args inp hmem
    by_cases h : ex (login_args u) (ProcInput.inputText p) = 0
    · rw [main_login_ok ex u p a h] at hmem
      by_cases hb : ex (buildCmd a) (ProcInput.stdinStream a.dockerfile) = 0 <;>
        simp [hb, preMsgs] at hmem <;> tauto
    · rw [main_login_fail ex u p a h] at hmem
      simp [preMsgs] at hmem
      tauto

/-- Witness for C6: a concrete login trace, and a concrete spawned
command classified as the login invocation. -/
theorem login_password_stdin_only_witness :
    (docker_login (fun _ _ => 0) "alice" "pw").1 =
      [Event.echo (loginEcho "alice"),
       Event.exec (login_args "alice") (ProcInput.inputText "pw")] ∧
    ((login_args "alice" = login_args "alice" ∧
        ProcInput.inputText "pw" = ProcInput.inputText "pw") ∨
      (login_args "alice" =
          buildCmd ⟨"FROM scratch", "org/app", none, "refs/heads/x"⟩ ∧
        ProcInput.inputText "pw" = ProcInput.stdinStream "FROM scratch")) :=
  ⟨login_password_stdin_only.1 (fun _ _ => 0) "alice" "pw",
   login_password_stdin_only.2.2 (fun _ _ => 0) "alice" "pw"
     ⟨"FROM scratch", "org/app", none, "refs/heads/x"⟩
     (login_args "alice") (ProcInput.inputText "pw") (by decide)⟩

/-- C7: with the username or the password environment value absent, `main`
prints a configuration error naming the missing key, terminates with the
corresponding `KeyError`, and spawns no process at all — neither login
nor build. -/
theorem missing_credentials_abort (ex : Executor) (a : Args) :
    (∀ pw : Option String,
      main ex ⟨none, pw⟩ a =
        (preMsgs a ++ [Event.msg ("error retrieving environment variables: " ++
            keyErrorStr "DOCKER_USERNAME")],
         Except.error (PyError.keyError "DOCKER_USERNAME")) ∧
      execEvents (main ex ⟨none, pw⟩ a).1 = []) ∧
    (∀ u : String,
      main ex ⟨some u, none⟩ a =
        (preMsgs a ++ [Event.msg ("error retrieving environment variables: " ++
            keyErrorStr "DOCKER_PASSWORD")],
         Except.error (PyError.keyError "DOCKER_PASSWORD")) ∧
      execEvents (main ex ⟨some u, none⟩ a).1 = []) :=
  ⟨fun pw => ⟨rfl, rfl⟩, fun u => ⟨rfl, rfl⟩⟩

/-- C8: execution is strictly sequential and retry-free: if the login
command exits non-zero, `main` propagates that failure and the only
spawned process is the login itself; if the login exits zero, the spawned
processes are exactly the login followed by the build, in that order. -/
theorem login_gates_build (ex : Executor) (u p : String) (a : Args) :
    (∀ c : Nat, ex (login_args u) (ProcInput.inputText p) = c + 1 →
      (main ex ⟨some u, some p⟩ a).2 =
          Except.error (PyError.calledProcessError (login_args u) (c + 1)) ∧
      execEvents (main ex ⟨some u, some p⟩ a).1 =
          [Event.exec (login_args u) (ProcInput.inputText p)]) ∧
    (ex (login_args u) (ProcInput.inputText p) = 0 →
      execEvents (main ex ⟨some u, some p⟩ a).1 =
        [Event.exec (login_args u) (ProcInput.inputText p),
         Event.exec (buildCmd a) (ProcInput.stdinStream a.dockerfile)]) := by
  constructor
  · intro c hc
    have hne : ex (login_args u) (ProcInput.inputText p) ≠ 0 := by
      rw [hc]; exact Nat.succ_ne_zero c
    rw [main_login_fail ex u p a hne]
    refine ⟨by rw [hc], ?_⟩
    simp [execEvents, preMsgs]
  · intro h
    rw [main_login_ok ex u p a h]
    by_cases hb : ex (buildCmd a) (ProcInput.stdinStream a.dockerfile) = 0 <;>
      simp [hb, execEvents, preMsgs]

/-- Witness for C8: a run whose login exits 1 spawns only the login and
propagates the error; a run whose login exits 0 spawns exactly the login
and then the build. -/
theorem login_gates_build_witness :
    ((main (fun _ _ => 1) ⟨some "alice", some "pw"⟩
          ⟨"FROM scratch", "org/app", none, "refs/heads/x"⟩).2 =
        Except.error (PyError.calledProcessError (login_args "alice") 1) ∧
      execEvents (main (fun _ _ => 1) ⟨some "alice", some "pw"⟩
          ⟨"FROM scratch", "org/app", none, "refs/heads/x"⟩).1 =
        [Event.exec (login_args "alice") (ProcInput.inputText "pw")]) ∧
    execEvents (main (fun _ _ => 0) ⟨some "alice", some "pw"⟩
        ⟨"FROM scratch", "org/app", none, "refs/heads/x"⟩).1 =
      [Event.exec (login_args "alice") (ProcInput.inputText "pw"),
       Event.exec (buildCmd ⟨"FROM scratch", "org/app", none, "refs/heads/x"⟩)
         (ProcInput.stdinStream "FROM scratch")] :=
  ⟨(login_gates_build (fun _ _ => 1) "alice" "pw"
      ⟨"FROM scratch", "org/app", none, "refs/heads/x"⟩).1 0 rfl,
   (login_gates_build (fun _ _ => 0) "alice" "pw"
      ⟨"FROM scratch", "org/app", none, "refs/heads/x"⟩).2 rfl⟩

end Push
